import Mathlib

/-!
# Flood dashboard: station normalisation, risk score, filtering and statistics

A shallow embedding of the data-transformation logic of `src/pages/index.js`
(`processedStations`, `sampleData`, `getAlertLabel`, `getRiskScore`,
`filteredStations`, `stats`), followed by theorems about it.

Modelling conventions.

* JavaScript numbers are modelled as exact rationals; a decimal literal denotes
  its decimal value.  `NaN` and the infinities cannot be written in JSON and are
  not modelled.
* A raw attribute is either missing (`none`, JavaScript `undefined`) or carries
  an arbitrary JSON value; the normaliser applies `||` to it whatever its type.
  The score, the filter and the statistics are stated on stations whose fields
  have the types of the data model.
* `new Date()` and `Date.prototype.toISOString` are inputs of the model: the
  current time `now` in milliseconds and the formatting function `iso`.
* `Array.prototype.sort` is stable and, for a consistent comparator, its result
  is determined by the comparator alone; it is modelled by a stable insertion
  sort driven by the same comparator.
-/

namespace FloodDashboard

/-! ## Data model -/

/-- A canonical station record, the object literal built at lines 22-32 and
41-50 of `index.js`. -/
structure Station where
  id : String
  station : String
  river : String
  level : ℚ
  alertLevel : String
  rateOfRise : ℚ
  measuredAt : String
  latitude : Option ℚ
  longitude : Option ℚ
  deriving DecidableEq

/-- A JSON value, as `JSON.parse` delivers it. -/
inductive Value where
  | null
  | bool (b : Bool)
  | num (x : ℚ)
  | str (s : String)
  | arr (items : List Value)
  | obj (members : List (String × Value))

/-- The attribute object of one entry of the feed: every field is optional and,
when present, holds any JSON value. -/
structure RawAttributes where
  station_name : Option Value
  river_name : Option Value
  water_level : Option Value
  alert_level : Option Value
  rate_of_rise : Option Value
  measured_at : Option Value
  latitude : Option Value
  longitude : Option Value

/-- The value stored under a key of the feed.  Reading a property of `null`
throws; reading one of these properties from a number, string, boolean or array
gives `undefined`; an object gives its attributes. -/
inductive RawValue where
  | null
  | scalar
  | object (attrs : RawAttributes)

/-- The attribute object with no field present. -/
def RawAttributes.empty : RawAttributes :=
  { station_name := none, river_name := none, water_level := none, alert_level := none,
    rate_of_rise := none, measured_at := none, latitude := none, longitude := none }

/-- The object literal built at lines 22-32, whatever the types of the values
found in the feed. -/
structure ProcessedStation where
  id : String
  station : Value
  river : Value
  level : Value
  alertLevel : Value
  rateOfRise : Value
  measuredAt : Value
  latitude : Option Value
  longitude : Option Value

/-! ## The `||` operator -/

/-- JavaScript truthiness of a JSON value: `null`, `false`, zero and the empty
string are falsy, everything else (arrays and objects included) is truthy. -/
def Value.truthy : Value → Bool
  | .null => false
  | .bool b => b
  | .num x => decide (x ≠ 0)
  | .str s => decide (s ≠ "")
  | .arr _ => true
  | .obj _ => true

/-- JavaScript `v || d` where `v` is a property read: a missing property is
`undefined`, which is falsy. -/
def orValue (v : Option Value) (d : Value) : Value :=
  match v with
  | some x => if x.truthy then x else d
  | none => d

/-! ## Station normaliser (`processedStations`) -/

/-- Property access on the value of an entry: fails on `null` only. -/
def RawValue.attributes : RawValue → Except String RawAttributes
  | .null => .error "TypeError: Cannot read properties of null"
  | .scalar => .ok RawAttributes.empty
  | .object attrs => .ok attrs

/-- The object literal of lines 22-32 for an attribute object. -/
def normalizeAttributes (iso : Int → String) (now : Int) (key : String)
    (value : RawAttributes) : ProcessedStation :=
  { id := key
    station := orValue value.station_name (.str key)
    river := orValue value.river_name (.str "Unknown")
    level := orValue value.water_level (.num 0)
    alertLevel := orValue value.alert_level (.str "normal")
    rateOfRise := orValue value.rate_of_rise (.num 0)
    measuredAt := orValue value.measured_at (.str (iso now))
    latitude := value.latitude
    longitude := value.longitude }

/-- The callback of `Object.entries(data).map` at lines 22-32. -/
def normalize (iso : Int → String) (now : Int) (key : String) (value : RawValue) :
    Except String ProcessedStation :=
  match value.attributes with
  | .ok attrs => .ok (normalizeAttributes iso now key attrs)
  | .error e => .error e

/-- The whole of `processedStations`: the entries are mapped in order and the
first exception aborts the map. -/
def processedStations (iso : Int → String) (now : Int) :
    List (String × RawValue) → Except String (List ProcessedStation)
  | [] => .ok []
  | (key, value) :: rest =>
    match normalize iso now key value with
    | .error e => .error e
    | .ok s =>
      match processedStations iso now rest with
      | .error e => .error e
      | .ok ss => .ok (s :: ss)

/-- A typed station seen as an object literal. -/
def Station.toProcessed (s : Station) : ProcessedStation :=
  { id := s.id, station := .str s.station, river := .str s.river, level := .num s.level,
    alertLevel := .str s.alertLevel, rateOfRise := .num s.rateOfRise,
    measuredAt := .str s.measuredAt, latitude := s.latitude.map Value.num,
    longitude := s.longitude.map Value.num }

/-- A coordinate of the data model: absent or a number. -/
def coordinate? : Option Value → Option (Option ℚ)
  | none => some none
  | some (.num x) => some (some x)
  | some _ => none

/-- The typed reading of an object literal, when every field has the type the
data model gives it. -/
def ProcessedStation.toStation? (p : ProcessedStation) : Option Station :=
  match p.station, p.river, p.level, p.alertLevel, p.rateOfRise, p.measuredAt,
    coordinate? p.latitude, coordinate? p.longitude with
  | .str station, .str river, .num level, .str alertLevel, .num rateOfRise, .str measuredAt,
    some latitude, some longitude =>
    some { id := p.id, station := station, river := river, level := level,
           alertLevel := alertLevel, rateOfRise := rateOfRise, measuredAt := measuredAt,
           latitude := latitude, longitude := longitude }
  | _, _, _, _, _, _, _, _ => none

/-! ## Fallback sample (`sampleData`) -/

/-- One literal of the fallback sample: no latitude or longitude. -/
def sampleStation (id station river : String) (level : ℚ) (alertLevel : String)
    (rateOfRise : ℚ) (measuredAt : String) : Station :=
  { id := id, station := station, river := river, level := level, alertLevel := alertLevel,
    rateOfRise := rateOfRise, measuredAt := measuredAt, latitude := none, longitude := none }

/-- The hardcoded fallback sample of lines 40-51. -/
def sampleData (iso : Int → String) (now : Int) : List Station :=
  [ sampleStation "1" "Nagalagam Street" "Kelani Ganga" 2.56 "major_flood" 0.015 (iso now),
    sampleStation "2" "Hanwella" "Kelani Ganga" 9.69 "minor_flood" (-0.087) (iso now),
    sampleStation "3" "Rathnapura" "Kalu Ganga" 5.82 "alert" (-0.059) (iso now),
    sampleStation "4" "Kalawellawa" "Kalu Ganga" 7.38 "minor_flood" (-0.051) (iso now),
    sampleStation "5" "Putupaula" "Kalu Ganga" 4.28 "minor_flood" (-0.010) (iso now),
    sampleStation "6" "Dunamale" "Aththanagalu Oya" 4.40 "minor_flood" (-0.121) (iso now),
    sampleStation "7" "Horowpothana" "Yan Oya" 7.29 "alert" (-0.020) (iso now),
    sampleStation "8" "Thanthirimale" "Malwathu Oya" 10.64 "major_flood" (-0.033) (iso now),
    sampleStation "9" "Peradeniya" "Mahaweli Ganga" 10.56 "major_flood" 0.595
      (iso (now - 86400000 * 4)),
    sampleStation "10" "Badalgama" "Maha Oya" 4.44 "normal" (-0.115) (iso now) ]

/-- The snapshot installed by `fetchData`: the processed feed, or the fallback
sample when fetching, decoding or processing throws. -/
def fetchData (iso : Int → String) (now : Int) (response : Option (List (String × RawValue))) :
    List ProcessedStation :=
  match response with
  | none => (sampleData iso now).map Station.toProcessed
  | some data =>
    match processedStations iso now data with
    | .ok stations => stations
    | .error _ => (sampleData iso now).map Station.toProcessed

/-! ## Rendering bucket (`getAlertLabel`) -/

/-- The `switch` of lines 76-83: the cases compare with `===`, so only a string
can match one. -/
def getAlertLabel (level : Value) : String :=
  match level with
  | .str s =>
    if s = "major_flood" then "Major Flood"
    else if s = "minor_flood" then "Minor Flood"
    else if s = "alert" then "Alert"
    else "Normal"
  | _ => "Normal"

/-! ## Risk score (`getRiskScore`) -/

/-- The function of lines 85-93: three independent `if`s on the alert level,
then an `if`/`else if` on the rate of rise. -/
def getRiskScore (station : Station) : Int := Id.run do
  let mut score := 0
  if station.alertLevel = "major_flood" then score := score + 100
  if station.alertLevel = "minor_flood" then score := score + 70
  if station.alertLevel = "alert" then score := score + 40
  if station.rateOfRise > 0.05 then score := score + 30
  else if station.rateOfRise > 0 then score := score + 10
  return score

/-! ## Filtering and ordering (`filteredStations`) -/

/-- The callback of `.filter` at lines 96-101. -/
def keeps (filter : String) (s : Station) : Bool :=
  if filter = "all" then true
  else if filter = "risk" then
    ["major_flood", "minor_flood", "alert"].contains s.alertLevel || decide (s.rateOfRise > 0)
  else if filter = "rising" then decide (s.rateOfRise > 0)
  else decide (s.alertLevel = filter)

/-- The comparator of `.sort` at line 102. -/
def compareRisk (a b : Station) : Int :=
  getRiskScore b - getRiskScore a

/-- A model of `Array.prototype.sort(cmp)`: a stable sort that puts `a` before
`b` when `cmp a b <= 0` and never moves an element past one it ties with. -/
def arraySort {α : Type} (cmp : α → α → Int) (l : List α) : List α :=
  l.insertionSort (fun a b => cmp a b ≤ 0)

/-- The displayed list of lines 95-102. -/
def filteredStations (stations : List Station) (filter : String) : List Station :=
  arraySort compareRisk (stations.filter (keeps filter))

/-! ## Aggregate statistics (`stats`) -/

/-- The object literal of lines 104-110. -/
structure Stats where
  total : Nat
  majorFlood : Nat
  minorFlood : Nat
  alert : Nat
  rising : Nat
  deriving DecidableEq

/-- The aggregate statistics of lines 104-110, over the unfiltered snapshot. -/
def stats (stations : List Station) : Stats :=
  { total := stations.length
    majorFlood := (stations.filter (fun s => decide (s.alertLevel = "major_flood"))).length
    minorFlood := (stations.filter (fun s => decide (s.alertLevel = "minor_flood"))).length
    alert := (stations.filter (fun s => decide (s.alertLevel = "alert"))).length
    rising := (stations.filter (fun s => decide (s.rateOfRise > 0.02))).length }

/-! ## The spec's description of the score -/

/-- The alert component in the spec's words: 100, 70, 40 or 0. -/
def alertComponent (alertLevel : String) : Int :=
  if alertLevel = "major_flood" then 100
  else if alertLevel = "minor_flood" then 70
  else if alertLevel = "alert" then 40
  else 0

/-- The rise component in the spec's words: 30, 10 or 0. -/
def riseComponent (rateOfRise : ℚ) : Int :=
  if rateOfRise > 0.05 then 30
  else if rateOfRise > 0 then 10
  else 0

/-- The four enumerated alert levels of the spec's data model. -/
def alertLevels : List String := ["normal", "alert", "minor_flood", "major_flood"]

/-- The four labels `getAlertLabel` can return. -/
def alertLabels : List String := ["Normal", "Alert", "Minor Flood", "Major Flood"]


/-! ## Concrete stations used in the examples -/

/-- A station in major flood, rising at 0.1 m/hr. -/
def stationMajorRising : Station :=
  sampleStation "a" "Alpha" "River" 5 "major_flood" 0.1 "2025-01-01T00:00:00.000Z"

/-- A normal station with no rise. -/
def stationNormalFlat : Station :=
  sampleStation "b" "Beta" "River" 1 "normal" 0 "2025-01-01T00:00:00.000Z"

/-- A station on alert whose level is falling. -/
def stationAlertFalling : Station :=
  sampleStation "c" "Gamma" "River" 2 "alert" (-0.02) "2025-01-01T00:00:00.000Z"

/-- A normal station rising slowly. -/
def stationNormalRising : Station :=
  sampleStation "d" "Delta" "River" 3 "normal" 0.01 "2025-01-01T00:00:00.000Z"

/-- A small snapshot. -/
def smallSnapshot : List Station :=
  [stationNormalFlat, stationAlertFalling, stationMajorRising, stationNormalRising]

/-- A fully populated attribute object. -/
def fullAttributes (name river level alert rate measured lat lon : Value) : RawAttributes :=
  { station_name := some name, river_name := some river, water_level := some level,
    alert_level := some alert, rate_of_rise := some rate, measured_at := some measured,
    latitude := some lat, longitude := some lon }

/-- The object literal that carries eight given values. -/
def stationOf (key : String) (name river level alert rate measured lat lon : Value) :
    ProcessedStation :=
  { id := key, station := name, river := river, level := level, alertLevel := alert,
    rateOfRise := rate, measuredAt := measured, latitude := some lat, longitude := some lon }

/-- An attribute object whose only field is a given alert level. -/
def attributesWithAlert (alert : Value) : RawAttributes :=
  { RawAttributes.empty with alert_level := some alert }

/-! ## Helper lemmas -/

/-- Closed form of the score: the three alert tests are mutually exclusive, so
the sequential updates add exactly one alert amount and one rise amount. -/
theorem getRiskScore_eq (s : Station) :
    getRiskScore s = alertComponent s.alertLevel + riseComponent s.rateOfRise := by
  unfold getRiskScore alertComponent riseComponent
  by_cases h1 : s.alertLevel = "major_flood"
  · by_cases h4 : s.rateOfRise > 0.05 <;> by_cases h5 : s.rateOfRise > 0 <;>
      simp [Id.run, h1, h4, h5]
  · by_cases h2 : s.alertLevel = "minor_flood"
    · by_cases h4 : s.rateOfRise > 0.05 <;> by_cases h5 : s.rateOfRise > 0 <;>
        simp [Id.run, h2, h4, h5]
    · by_cases h3 : s.alertLevel = "alert" <;> by_cases h4 : s.rateOfRise > 0.05 <;>
        by_cases h5 : s.rateOfRise > 0 <;> simp [Id.run, h1, h2, h3, h4, h5]

/-- The order the comparator induces: `a` may stand before `b` exactly when the
score of `b` does not exceed the score of `a`. -/
theorem compareRisk_nonpos_iff (a b : Station) :
    compareRisk a b ≤ 0 ↔ getRiskScore b ≤ getRiskScore a := by
  unfold compareRisk
  omega

instance compareRisk_isTotal : IsTotal Station (fun a b => compareRisk a b ≤ 0) :=
  ⟨fun a b => by
    simp only [compareRisk_nonpos_iff]
    exact le_total _ _⟩

instance compareRisk_isTrans : IsTrans Station (fun a b => compareRisk a b ≤ 0) :=
  ⟨fun a b c hab hbc => by
    simp only [compareRisk_nonpos_iff] at *
    exact le_trans hbc hab⟩

/-- Sorting rearranges, it neither drops nor duplicates. -/
theorem arraySort_perm {α : Type} (cmp : α → α → Int) (l : List α) :
    (arraySort cmp l).Perm l :=
  List.perm_insertionSort _ l

/-- The displayed list is a rearrangement of the kept stations. -/
theorem filteredStations_perm (stations : List Station) (filter : String) :
    (filteredStations stations filter).Perm (stations.filter (keeps filter)) :=
  arraySort_perm _ _

/-- Membership in the displayed list. -/
theorem mem_filteredStations (stations : List Station) (filter : String) (st : Station) :
    st ∈ filteredStations stations filter ↔ st ∈ stations ∧ keeps filter st = true := by
  rw [(filteredStations_perm stations filter).mem_iff, List.mem_filter]

/-- The displayed list is in descending score order. -/
theorem filteredStations_sorted (stations : List Station) (filter : String) :
    (filteredStations stations filter).Pairwise
      (fun a b => getRiskScore a ≥ getRiskScore b) := by
  have h := List.sorted_insertionSort (fun a b : Station => compareRisk a b ≤ 0)
    (stations.filter (keeps filter))
  unfold filteredStations arraySort
  refine List.Pairwise.imp ?_ h
  intro a b hab
  exact (compareRisk_nonpos_iff a b).1 hab

/-- Stability: the stations of any one score stand in the displayed list in the
order they have in the snapshot. -/
theorem filteredStations_stable (stations : List Station) (filter : String) (k : Int) :
    (filteredStations stations filter).filter (fun s => decide (getRiskScore s = k)) =
      (stations.filter (keeps filter)).filter (fun s => decide (getRiskScore s = k)) := by
  set l := stations.filter (keeps filter) with hl
  set c := l.filter (fun s => decide (getRiskScore s = k)) with hc
  have hpair : c.Pairwise (fun a b => compareRisk a b ≤ 0) := by
    rw [List.pairwise_iff_forall_sublist]
    intro a b hab
    have ha : a ∈ c := hab.subset (by simp)
    have hb : b ∈ c := hab.subset (by simp)
    rw [hc, List.mem_filter] at ha hb
    rw [compareRisk_nonpos_iff]
    have h1 := of_decide_eq_true ha.2
    have h2 := of_decide_eq_true hb.2
    omega
  have hsub : c.Sublist (filteredStations stations filter) :=
    List.sublist_insertionSort hpair (List.filter_sublist l)
  have hsub2 : c.Sublist ((filteredStations stations filter).filter
      (fun s => decide (getRiskScore s = k))) := by
    have := hsub.filter (fun s => decide (getRiskScore s = k))
    have hcc : c.filter (fun s => decide (getRiskScore s = k)) = c := by
      rw [hc, List.filter_filter]
      simp only [Bool.and_self]
    rwa [hcc] at this
  have hlen : ((filteredStations stations filter).filter
      (fun s => decide (getRiskScore s = k))).length = c.length :=
    ((filteredStations_perm stations filter).filter _).length_eq
  exact (hsub2.eq_of_length hlen.symm).symm

/-- The "risk" test of the filter holds exactly for the stations of positive
score. -/
theorem keeps_risk_iff (st : Station) : keeps "risk" st = true ↔ getRiskScore st > 0 := by
  rw [getRiskScore_eq]
  unfold keeps alertComponent riseComponent
  by_cases h1 : st.alertLevel = "major_flood"
  · by_cases h4 : st.rateOfRise > 0.05 <;> by_cases h5 : st.rateOfRise > 0 <;>
      simp [h1, h4, h5]
  · by_cases h2 : st.alertLevel = "minor_flood"
    · by_cases h4 : st.rateOfRise > 0.05 <;> by_cases h5 : st.rateOfRise > 0 <;>
        simp [h2, h4, h5]
    · by_cases h3 : st.alertLevel = "alert"
      · by_cases h4 : st.rateOfRise > 0.05 <;> by_cases h5 : st.rateOfRise > 0 <;>
          simp [h3, h4, h5]
      · by_cases h5 : st.rateOfRise > 0
        · by_cases h4 : st.rateOfRise > 0.05 <;> simp [h1, h2, h3, h4, h5]
        · have h4 : ¬ st.rateOfRise > 0.05 := by
            intro h
            apply h5
            have : (0 : ℚ) < 0.05 := by norm_num
            exact lt_trans this h
          simp [h1, h2, h3, h4, h5]

/-- The test of a filter mode that is none of the three special ones. -/
theorem keeps_other (filter : String) (h1 : filter ≠ "all") (h2 : filter ≠ "risk")
    (h3 : filter ≠ "rising") (st : Station) :
    keeps filter st = decide (st.alertLevel = filter) := by
  unfold keeps
  simp [h1, h2, h3]

/-- The test of the "rising" mode. -/
theorem keeps_rising (st : Station) : keeps "rising" st = decide (st.rateOfRise > 0) := by
  unfold keeps
  simp

/-- The test of the "all" mode. -/
theorem keeps_all (st : Station) : keeps "all" st = true := by
  unfold keeps
  simp

/-! ## Risk score -/

/-- C1: for every station the score is one alert component (100, 70, 40 or 0)
plus one rise component (30, 10 or 0); a station in major flood rising at 0.1
scores exactly 130 and a normal station with rate 0 scores exactly 0. -/
theorem getRiskScore_components (s : Station) :
    getRiskScore s = alertComponent s.alertLevel + riseComponent s.rateOfRise ∧
    (s.alertLevel = "major_flood" → s.rateOfRise = 0.1 → getRiskScore s = 130) ∧
    (s.alertLevel = "normal" → s.rateOfRise = 0 → getRiskScore s = 0) := by
  refine ⟨getRiskScore_eq s, ?_, ?_⟩
  · intro ha hr
    rw [getRiskScore_eq, ha, hr]
    unfold alertComponent riseComponent
    norm_num
  · intro ha hr
    rw [getRiskScore_eq, ha, hr]
    unfold alertComponent riseComponent
    simp
    norm_num

/-- The examples of C1 at two concrete stations. -/
theorem getRiskScore_components_witness :
    getRiskScore stationMajorRising = 130 ∧ getRiskScore stationNormalFlat = 0 :=
  ⟨(getRiskScore_components stationMajorRising).2.1 rfl rfl,
   (getRiskScore_components stationNormalFlat).2.2 rfl rfl⟩

/-- C8: every score lies between 0 and 130 and is one of 0, 10, 30, 40, 50, 70,
80, 100, 110, 130; both bounds are attained. -/
theorem getRiskScore_bounds :
    (∀ s : Station, 0 ≤ getRiskScore s ∧ getRiskScore s ≤ 130 ∧
      getRiskScore s ∈ [0, 10, 30, 40, 50, 70, 80, 100, 110, 130]) ∧
    (∃ s : Station, getRiskScore s = 130) ∧ (∃ s : Station, getRiskScore s = 0) := by
  refine ⟨?_, ⟨stationMajorRising, ?_⟩, ⟨stationNormalFlat, ?_⟩⟩
  · intro s
    rw [getRiskScore_eq]
    unfold alertComponent riseComponent
    split_ifs <;> simp
  · rw [getRiskScore_eq]
    simp [stationMajorRising, sampleStation, alertComponent, riseComponent]
    norm_num
  · rw [getRiskScore_eq]
    simp [stationNormalFlat, sampleStation, alertComponent, riseComponent]
    norm_num

/-! ## Filtering and ordering -/

/-- C2: for every snapshot and every filter mode the displayed list is a
permutation of the stations kept by the mode, in descending score order, and the
stations of each score stand in their snapshot order; for mode "all" it is a
permutation of the whole snapshot. -/
theorem filteredStations_sorted_stable_perm (stations : List Station) (filter : String) :
    (filteredStations stations filter).Perm (stations.filter (keeps filter)) ∧
    (filteredStations stations filter).Pairwise
      (fun a b => getRiskScore a ≥ getRiskScore b) ∧
    (∀ k : Int,
      (filteredStations stations filter).filter (fun s => decide (getRiskScore s = k)) =
        (stations.filter (keeps filter)).filter (fun s => decide (getRiskScore s = k))) ∧
    (filteredStations stations "all").Perm stations := by
  refine ⟨filteredStations_perm _ _, filteredStations_sorted _ _,
    filteredStations_stable _ _, ?_⟩
  have h := filteredStations_perm stations "all"
  have hall : stations.filter (keeps "all") = stations := by
    rw [List.filter_eq_self]
    intro a _
    exact keeps_all a
  rwa [hall] at h

/-- C3: the "rising" list holds exactly the stations of the snapshot with a
positive rate of rise, each as often as in the snapshot (once when ids are
unique), and no station with rate at most 0. -/
theorem filteredStations_rising (stations : List Station) :
    (filteredStations stations "rising").Perm
      (stations.filter (fun s => decide (s.rateOfRise > 0))) ∧
    (∀ st, st ∈ filteredStations stations "rising" ↔ st ∈ stations ∧ st.rateOfRise > 0) ∧
    (∀ st, st.rateOfRise ≤ 0 → st ∉ filteredStations stations "rising") ∧
    (∀ st, st.rateOfRise > 0 →
      (filteredStations stations "rising").count st = stations.count st) ∧
    ((stations.map (fun s => s.id)).Nodup → ∀ st ∈ stations, st.rateOfRise > 0 →
      (filteredStations stations "rising").count st = 1) := by
  have hfun : keeps "rising" = fun s => decide (s.rateOfRise > 0) := funext keeps_rising
  have hperm : (filteredStations stations "rising").Perm
      (stations.filter (fun s => decide (s.rateOfRise > 0))) := by
    have h := filteredStations_perm stations "rising"
    rwa [hfun] at h
  have hcount : ∀ st, st.rateOfRise > 0 →
      (filteredStations stations "rising").count st = stations.count st := by
    intro st hst
    rw [hperm.count_eq, List.count_filter]
    exact decide_eq_true hst
  refine ⟨hperm, ?_, ?_, hcount, ?_⟩
  · intro st
    rw [mem_filteredStations, keeps_rising, decide_eq_true_iff]
  · intro st hst hmem
    rw [mem_filteredStations, keeps_rising, decide_eq_true_iff] at hmem
    exact absurd hmem.2 (not_lt.mpr hst)
  · intro hnd st hmem hst
    rw [hcount st hst]
    exact List.count_eq_one_of_mem (List.Nodup.of_map _ hnd) hmem

/-- C9: for a filter mode other than "all", "risk" and "rising" the list holds
exactly the stations whose alert level equals the mode string, so it is empty
when no station matches. -/
theorem filteredStations_exact_match (stations : List Station) (filter : String)
    (h1 : filter ≠ "all") (h2 : filter ≠ "risk") (h3 : filter ≠ "rising") :
    (filteredStations stations filter).Perm
      (stations.filter (fun s => decide (s.alertLevel = filter))) ∧
    (∀ st, st ∈ filteredStations stations filter ↔ st ∈ stations ∧ st.alertLevel = filter) ∧
    ((∀ st ∈ stations, st.alertLevel ≠ filter) → filteredStations stations filter = []) := by
  have hfun : keeps filter = fun s => decide (s.alertLevel = filter) :=
    funext (keeps_other filter h1 h2 h3)
  have hperm : (filteredStations stations filter).Perm
      (stations.filter (fun s => decide (s.alertLevel = filter))) := by
    have h := filteredStations_perm stations filter
    rwa [hfun] at h
  refine ⟨hperm, ?_, ?_⟩
  · intro st
    rw [mem_filteredStations, keeps_other filter h1 h2 h3, decide_eq_true_iff]
  · intro hno
    have hnil : stations.filter (fun s => decide (s.alertLevel = filter)) = [] := by
      rw [List.filter_eq_nil_iff]
      intro a ha
      simpa using hno a ha
    rw [hnil] at hperm
    exact hperm.eq_nil

/-- C10: the "risk" test keeps a station exactly when its score is positive, so
the "risk" list is the set of stations of positive score, and it contains every
station of the "rising", "major_flood", "minor_flood" and "alert" lists. -/
theorem risk_filter_iff_positive_score (stations : List Station) :
    (∀ st, keeps "risk" st = true ↔ getRiskScore st > 0) ∧
    (filteredStations stations "risk").Perm
      (stations.filter (fun s => decide (getRiskScore s > 0))) ∧
    (∀ st, st ∈ filteredStations stations "risk" ↔ st ∈ stations ∧ getRiskScore st > 0) ∧
    (∀ mode ∈ ["rising", "major_flood", "minor_flood", "alert"],
      ∀ st, st ∈ filteredStations stations mode → st ∈ filteredStations stations "risk") := by
  refine ⟨keeps_risk_iff, ?_, ?_, ?_⟩
  · have h := filteredStations_perm stations "risk"
    have hfun : keeps "risk" = fun s => decide (getRiskScore s > 0) := by
      funext s
      rw [Bool.eq_iff_iff, keeps_risk_iff, decide_eq_true_iff]
    rwa [hfun] at h
  · intro st
    rw [mem_filteredStations, keeps_risk_iff]
  · intro mode hmode st hst
    rw [mem_filteredStations] at hst ⊢
    refine ⟨hst.1, ?_⟩
    have hk := hst.2
    simp only [List.mem_cons, List.mem_singleton, List.not_mem_nil, or_false] at hmode
    rcases hmode with h | h | h | h <;> subst h <;> unfold keeps at hk ⊢ <;> simp at hk ⊢ <;>
      simp [hk]

/-- Facts about the small snapshot used by the examples below. -/
theorem smallSnapshot_ids_nodup : (smallSnapshot.map (fun s => s.id)).Nodup := by
  simp [smallSnapshot, stationNormalFlat, stationAlertFalling, stationMajorRising,
    stationNormalRising, sampleStation]

theorem stationMajorRising_mem : stationMajorRising ∈ smallSnapshot := by
  simp [smallSnapshot]

theorem stationMajorRising_rate_pos : stationMajorRising.rateOfRise > 0 := by
  simp [stationMajorRising, sampleStation]
  norm_num

theorem smallSnapshot_no_minor_flood : ∀ st ∈ smallSnapshot, st.alertLevel ≠ "minor_flood" := by
  intro st hst
  simp only [smallSnapshot, List.mem_cons, List.mem_singleton, List.not_mem_nil, or_false] at hst
  rcases hst with h | h | h | h <;> subst h <;>
    simp [stationNormalFlat, stationAlertFalling, stationMajorRising, stationNormalRising,
      sampleStation]

/-- C3 at the small snapshot: the rising station in major flood appears exactly
once in the "rising" list. -/
theorem filteredStations_rising_witness :
    (smallSnapshot.map (fun s => s.id)).Nodup ∧ stationMajorRising ∈ smallSnapshot ∧
    stationMajorRising.rateOfRise > 0 ∧
    (filteredStations smallSnapshot "rising").count stationMajorRising = 1 :=
  ⟨smallSnapshot_ids_nodup, stationMajorRising_mem, stationMajorRising_rate_pos,
   (filteredStations_rising smallSnapshot).2.2.2.2 smallSnapshot_ids_nodup
     stationMajorRising stationMajorRising_mem stationMajorRising_rate_pos⟩

/-- C9 at the small snapshot: no station is in minor flood, so that mode shows
nothing. -/
theorem filteredStations_exact_match_witness :
    ("minor_flood" ≠ "all" ∧ "minor_flood" ≠ "risk" ∧ "minor_flood" ≠ "rising") ∧
    (∀ st ∈ smallSnapshot, st.alertLevel ≠ "minor_flood") ∧
    filteredStations smallSnapshot "minor_flood" = [] :=
  ⟨⟨by decide, by decide, by decide⟩, smallSnapshot_no_minor_flood,
   (filteredStations_exact_match smallSnapshot "minor_flood" (by decide) (by decide)
     (by decide)).2.2 smallSnapshot_no_minor_flood⟩

/-- C10 at the small snapshot: the station of the "rising" list is in the
"risk" list. -/
theorem risk_filter_iff_positive_score_witness :
    stationMajorRising ∈ filteredStations smallSnapshot "rising" ∧
    stationMajorRising ∈ filteredStations smallSnapshot "risk" :=
  have hmem : stationMajorRising ∈ filteredStations smallSnapshot "rising" :=
    (mem_filteredStations smallSnapshot "rising" stationMajorRising).2
      ⟨stationMajorRising_mem, by
        rw [keeps_rising]
        exact decide_eq_true stationMajorRising_rate_pos⟩
  ⟨hmem, (risk_filter_iff_positive_score smallSnapshot).2.2.2 "rising" (by simp)
    stationMajorRising hmem⟩

/-! ## Aggregate statistics -/

/-- The only station of the fallback sample rising faster than 0.02 is
Peradeniya. -/
theorem sampleData_filter_rising (iso : Int → String) (now : Int) :
    (sampleData iso now).filter (fun s => decide (s.rateOfRise > 0.02)) =
      [sampleStation "9" "Peradeniya" "Mahaweli Ganga" 10.56 "major_flood" 0.595
        (iso (now - 86400000 * 4))] := by
  simp only [sampleData, sampleStation]
  rw [List.filter_cons_of_neg]
  rw [List.filter_cons_of_neg, List.filter_cons_of_neg, List.filter_cons_of_neg,
    List.filter_cons_of_neg, List.filter_cons_of_neg, List.filter_cons_of_neg,
    List.filter_cons_of_neg, List.filter_cons_of_pos, List.filter_cons_of_neg,
    List.filter_nil]
  all_goals norm_num

/-- C4: on the ten-station fallback sample the statistics are total 10, major
flood 3 (Nagalagam Street, Thanthirimale, Peradeniya), minor flood 4, alert 2
and rising 1 (Peradeniya at 0.595). -/
theorem stats_sampleData (iso : Int → String) (now : Int) :
    stats (sampleData iso now) =
      { total := 10, majorFlood := 3, minorFlood := 4, alert := 2, rising := 1 } ∧
    ((sampleData iso now).filter (fun s => decide (s.alertLevel = "major_flood"))).map
      (fun s => s.station) = ["Nagalagam Street", "Thanthirimale", "Peradeniya"] ∧
    ((sampleData iso now).filter (fun s => decide (s.rateOfRise > 0.02))).map
      (fun s => (s.station, s.rateOfRise)) = [("Peradeniya", 0.595)] := by
  refine ⟨?_, ?_, ?_⟩
  · unfold stats
    rw [sampleData_filter_rising]
    simp [sampleData, sampleStation, List.filter_cons]
  · simp [sampleData, sampleStation, List.filter_cons]
  · rw [sampleData_filter_rising]
    rfl

/-! ## Station normaliser -/

/-- The falsy JSON values are `null`, `false`, zero and the empty string. -/
theorem Value.truthy_eq_false_iff (v : Value) :
    v.truthy = false ↔ v = .null ∨ v = .bool false ∨ v = .num 0 ∨ v = .str "" := by
  cases v <;> simp [Value.truthy]

/-- The operator keeps a truthy left operand. -/
theorem orValue_of_truthy (v d : Value) (h : v.truthy = true) : orValue (some v) d = v := by
  simp [orValue, h]

/-- The operator replaces a falsy left operand. -/
theorem orValue_of_falsy (v d : Value) (h : v.truthy = false) : orValue (some v) d = d := by
  simp [orValue, h]

/-- The operator replaces a missing left operand. -/
theorem orValue_none (d : Value) : orValue none d = d := rfl

/-- The operator as a conditional. -/
theorem orValue_some (v d : Value) : orValue (some v) d = if v.truthy then v else d := rfl

/-- A typed station is read back from its object literal. -/
theorem toStation?_toProcessed (s : Station) : s.toProcessed.toStation? = some s := by
  obtain ⟨id, station, river, level, alertLevel, rateOfRise, measuredAt, latitude, longitude⟩ := s
  cases latitude <;> cases longitude <;> rfl

/-- The whole map succeeds on a feed whose values are all attribute objects, and
normalises the entries one by one in order. -/
theorem processedStations_objects (iso : Int → String) (now : Int)
    (data : List (String × RawAttributes)) :
    processedStations iso now (data.map (fun e => (e.1, RawValue.object e.2))) =
      Except.ok (data.map (fun e => normalizeAttributes iso now e.1 e.2)) := by
  induction data with
  | nil => rfl
  | cons e rest ih =>
    simp only [List.map_cons, processedStations, normalize, RawValue.attributes, ih]

/-- A single `null` value makes the map throw, and the fallback sample is
installed instead. -/
theorem fetchData_null_entry (iso : Int → String) (now : Int) (key : String)
    (rest : List (String × RawValue)) :
    fetchData iso now (some ((key, RawValue.null) :: rest)) =
      (sampleData iso now).map Station.toProcessed := by
  simp [fetchData, processedStations, normalize, RawValue.attributes]

/-- C5: for every key and every attribute object, normalisation succeeds; the
id is the key and each missing field gets its default: station the key, river
"Unknown", level 0, alert level "normal", rate of rise 0, measured-at the
current time, latitude and longitude absent. -/
theorem normalize_defaults (iso : Int → String) (now : Int) (key : String)
    (attrs : RawAttributes) :
    ∃ st, normalize iso now key (RawValue.object attrs) = Except.ok st ∧
      st.id = key ∧
      (attrs.station_name = none → st.station = Value.str key) ∧
      (attrs.river_name = none → st.river = Value.str "Unknown") ∧
      (attrs.water_level = none → st.level = Value.num 0) ∧
      (attrs.alert_level = none → st.alertLevel = Value.str "normal") ∧
      (attrs.rate_of_rise = none → st.rateOfRise = Value.num 0) ∧
      (attrs.measured_at = none → st.measuredAt = Value.str (iso now)) ∧
      (attrs.latitude = none → st.latitude = none) ∧
      (attrs.longitude = none → st.longitude = none) := by
  refine ⟨normalizeAttributes iso now key attrs, rfl, rfl, ?_, ?_, ?_, ?_, ?_, ?_, ?_, ?_⟩ <;>
    intro h <;> simp [normalizeAttributes, orValue, h]

/-- C5 at the empty attribute object: every default is applied. -/
theorem normalize_defaults_witness :
    ∃ st, normalize (fun _ => "now") 0 "k1" (RawValue.object RawAttributes.empty) =
        Except.ok st ∧
      st.id = "k1" ∧ st.station = Value.str "k1" ∧ st.river = Value.str "Unknown" ∧
      st.level = Value.num 0 ∧ st.alertLevel = Value.str "normal" ∧
      st.rateOfRise = Value.num 0 ∧ st.measuredAt = Value.str "now" ∧
      st.latitude = none ∧ st.longitude = none :=
  match normalize_defaults (fun _ => "now") 0 "k1" RawAttributes.empty with
  | ⟨st, h0, h1, h2, h3, h4, h5, h6, h7, h8, h9⟩ =>
    ⟨st, h0, h1, h2 rfl, h3 rfl, h4 rfl, h5 rfl, h6 rfl, h7 rfl, h8 rfl, h9 rfl⟩

/-- C6 as stated fails: the fully populated entry under key "k1" whose station
name is the empty string is normalised to a station named "k1", not "". -/
theorem roundtrip_fails_on_empty_string :
    normalize (fun _ => "now") 0 "k1"
        (RawValue.object (fullAttributes (.str "") (.str "Kelani Ganga") (.num 2) (.str "alert")
          (.num 1) (.str "t") (.num 7) (.num 80))) =
      Except.ok (stationOf "k1" (.str "k1") (.str "Kelani Ganga") (.num 2) (.str "alert")
        (.num 1) (.str "t") (.num 7) (.num 80)) ∧
    normalize (fun _ => "now") 0 "k1"
        (RawValue.object (fullAttributes (.str "") (.str "Kelani Ganga") (.num 2) (.str "alert")
          (.num 1) (.str "t") (.num 7) (.num 80))) ≠
      Except.ok (stationOf "k1" (.str "") (.str "Kelani Ganga") (.num 2) (.str "alert")
        (.num 1) (.str "t") (.num 7) (.num 80)) := by
  constructor <;>
    simp [normalize, RawValue.attributes, normalizeAttributes, fullAttributes, stationOf,
      orValue, Value.truthy]

/-- C6 amended: for a fully populated entry, latitude and longitude are kept,
and each of the six other values is kept when it is truthy and replaced by the
default of its field when it is falsy (`null`, `false`, zero or the empty
string); so all eight values are unchanged when the four text values are truthy
and the two numeric values are truthy or zero. -/
theorem normalize_roundtrip (iso : Int → String) (now : Int) (key : String)
    (name river level alert rate measured lat lon : Value) :
    normalize iso now key
        (RawValue.object (fullAttributes name river level alert rate measured lat lon)) =
      Except.ok (stationOf key
        (if name.truthy then name else Value.str key)
        (if river.truthy then river else Value.str "Unknown")
        (if level.truthy then level else Value.num 0)
        (if alert.truthy then alert else Value.str "normal")
        (if rate.truthy then rate else Value.num 0)
        (if measured.truthy then measured else Value.str (iso now))
        lat lon) ∧
    (∀ v : Value, v.truthy = false ↔
      v = Value.null ∨ v = Value.bool false ∨ v = Value.num 0 ∨ v = Value.str "") ∧
    (name.truthy = true → river.truthy = true → alert.truthy = true →
      measured.truthy = true → (level.truthy = true ∨ level = Value.num 0) →
      (rate.truthy = true ∨ rate = Value.num 0) →
      normalize iso now key
          (RawValue.object (fullAttributes name river level alert rate measured lat lon)) =
        Except.ok (stationOf key name river level alert rate measured lat lon)) := by
  refine ⟨rfl, Value.truthy_eq_false_iff, ?_⟩
  intro hname hriver halert hmeasured hlevel hrate
  have hl : orValue (some level) (Value.num 0) = level := by
    rcases hlevel with h | h
    · exact orValue_of_truthy _ _ h
    · subst h
      rfl
  have hr : orValue (some rate) (Value.num 0) = rate := by
    rcases hrate with h | h
    · exact orValue_of_truthy _ _ h
    · subst h
      rfl
  simp only [normalize, RawValue.attributes, normalizeAttributes, fullAttributes, stationOf,
    orValue_of_truthy _ _ hname, orValue_of_truthy _ _ hriver, orValue_of_truthy _ _ halert,
    orValue_of_truthy _ _ hmeasured, hl, hr]

/-- C6 amended, at an entry with a zero level and a zero rate. -/
theorem normalize_roundtrip_witness :
    normalize (fun _ => "now") 0 "k1"
        (RawValue.object (fullAttributes (.str "Hanwella") (.str "Kelani Ganga") (.num 0)
          (.str "alert") (.num 0) (.str "t") (.num 7) (.num 80))) =
      Except.ok (stationOf "k1" (.str "Hanwella") (.str "Kelani Ganga") (.num 0)
        (.str "alert") (.num 0) (.str "t") (.num 7) (.num 80)) :=
  (normalize_roundtrip (fun _ => "now") 0 "k1" (.str "Hanwella") (.str "Kelani Ganga") (.num 0)
    (.str "alert") (.num 0) (.str "t") (.num 7) (.num 80)).2.2
    (by simp [Value.truthy]) (by simp [Value.truthy]) (by simp [Value.truthy])
    (by simp [Value.truthy]) (Or.inr rfl) (Or.inr rfl)

/-- The label of a level outside the three flood strings is "Normal". -/
theorem getAlertLabel_other (level : Value)
    (h : ¬ ∃ a ∈ alertLevels, level = Value.str a) : getAlertLabel level = "Normal" := by
  cases level with
  | str s =>
    have h1 : s ≠ "major_flood" := fun e => h ⟨s, by simp [alertLevels, e], rfl⟩
    have h2 : s ≠ "minor_flood" := fun e => h ⟨s, by simp [alertLevels, e], rfl⟩
    have h3 : s ≠ "alert" := fun e => h ⟨s, by simp [alertLevels, e], rfl⟩
    simp [getAlertLabel, h1, h2, h3]
  | _ => rfl

/-- Every label is one of the four. -/
theorem getAlertLabel_mem (level : Value) : getAlertLabel level ∈ alertLabels := by
  cases level with
  | str s =>
    simp only [getAlertLabel, alertLabels]
    split_ifs <;> simp
  | _ => simp [getAlertLabel, alertLabels]

/-- Each enumerated alert level is a truthy string. -/
theorem alertLevels_truthy (a : String) (h : a ∈ alertLevels) :
    (Value.str a).truthy = true := by
  simp only [alertLevels, List.mem_cons, List.mem_singleton, List.not_mem_nil, or_false] at h
  rcases h with h | h | h | h <;> subst h <;> simp [Value.truthy]

/-- C7 as stated fails: an entry with alert level "extreme" is normalised to a
station whose alert level is "extreme", none of the four enumerated values. -/
theorem alertLevel_not_enumerated :
    normalize (fun _ => "now") 0 "k1"
        (RawValue.object (attributesWithAlert (Value.str "extreme"))) =
      Except.ok (normalizeAttributes (fun _ => "now") 0 "k1"
        (attributesWithAlert (Value.str "extreme"))) ∧
    (normalizeAttributes (fun _ => "now") 0 "k1"
        (attributesWithAlert (Value.str "extreme"))).alertLevel = Value.str "extreme" ∧
    ¬ ∃ a ∈ alertLevels,
      (normalizeAttributes (fun _ => "now") 0 "k1"
        (attributesWithAlert (Value.str "extreme"))).alertLevel = Value.str a := by
  refine ⟨rfl, ?_, ?_⟩ <;>
    simp [normalizeAttributes, attributesWithAlert, RawAttributes.empty, orValue, Value.truthy,
      alertLevels]

/-- C7 amended: the alert level of the normalised station is the raw one,
unchanged, when that is truthy, whatever its type, and "normal" when it is
missing or falsy (`null`, `false`, zero or the empty string); so it is one of
the four enumerated values exactly when the raw one is missing, falsy or one of
the four strings; the label rendered for it is always one of the four labels,
and "Normal" for a level outside the enumeration. -/
theorem normalize_alertLevel (iso : Int → String) (now : Int) (key : String)
    (attrs : RawAttributes) :
    ∃ st, normalize iso now key (RawValue.object attrs) = Except.ok st ∧
      (∀ v, attrs.alert_level = some v → v.truthy = true → st.alertLevel = v) ∧
      (attrs.alert_level = none ∨ (∃ v, attrs.alert_level = some v ∧ v.truthy = false) →
        st.alertLevel = Value.str "normal") ∧
      ((∃ a ∈ alertLevels, st.alertLevel = Value.str a) ↔
        (attrs.alert_level = none ∨ (∃ v, attrs.alert_level = some v ∧ v.truthy = false) ∨
          ∃ a ∈ alertLevels, attrs.alert_level = some (Value.str a))) ∧
      getAlertLabel st.alertLevel ∈ alertLabels ∧
      ((¬ ∃ a ∈ alertLevels, st.alertLevel = Value.str a) →
        getAlertLabel st.alertLevel = "Normal") ∧
      (∀ v : Value, v.truthy = false ↔
        v = Value.null ∨ v = Value.bool false ∨ v = Value.num 0 ∨ v = Value.str "") := by
  have hkeep : ∀ v, attrs.alert_level = some v → v.truthy = true →
      (normalizeAttributes iso now key attrs).alertLevel = v := by
    intro v hv ht
    simp only [normalizeAttributes, hv]
    exact orValue_of_truthy _ _ ht
  have hdefault : attrs.alert_level = none ∨
      (∃ v, attrs.alert_level = some v ∧ v.truthy = false) →
      (normalizeAttributes iso now key attrs).alertLevel = Value.str "normal" := by
    rintro (h | ⟨v, hv, hf⟩)
    · simp only [normalizeAttributes, h]
      rfl
    · simp only [normalizeAttributes, hv]
      exact orValue_of_falsy _ _ hf
  refine ⟨normalizeAttributes iso now key attrs, rfl, hkeep, hdefault, ?_,
    getAlertLabel_mem _, getAlertLabel_other _, Value.truthy_eq_false_iff⟩
  constructor
  · rintro ⟨a, ha, hst⟩
    cases hraw : attrs.alert_level with
    | none => exact Or.inl rfl
    | some v =>
      cases ht : v.truthy with
      | false => exact Or.inr (Or.inl ⟨v, rfl, ht⟩)
      | true =>
        have hv := hkeep v hraw ht
        rw [hst] at hv
        exact Or.inr (Or.inr ⟨a, ha, by rw [hv]⟩)
  · rintro (h | h | ⟨a, ha, h⟩)
    · exact ⟨"normal", by simp [alertLevels], hdefault (Or.inl h)⟩
    · exact ⟨"normal", by simp [alertLevels], hdefault (Or.inr h)⟩
    · exact ⟨a, ha, hkeep _ h (alertLevels_truthy a ha)⟩

/-- C7 amended, at an entry without alert level, at the entry with level
"extreme" and at an entry whose level is the number 5. -/
theorem normalize_alertLevel_witness :
    (∃ st, normalize (fun _ => "now") 0 "k1" (RawValue.object RawAttributes.empty) =
        Except.ok st ∧ st.alertLevel = Value.str "normal") ∧
    (∃ st, normalize (fun _ => "now") 0 "k1"
          (RawValue.object (attributesWithAlert (Value.str "extreme"))) = Except.ok st ∧
        st.alertLevel = Value.str "extreme") ∧
    (∃ st, normalize (fun _ => "now") 0 "k1"
          (RawValue.object (attributesWithAlert (Value.num 5))) = Except.ok st ∧
        st.alertLevel = Value.num 5 ∧ getAlertLabel st.alertLevel = "Normal") :=
  ⟨match normalize_alertLevel (fun _ => "now") 0 "k1" RawAttributes.empty with
    | ⟨st, h0, _, h2, _, _, _, _⟩ => ⟨st, h0, h2 (Or.inl rfl)⟩,
   match normalize_alertLevel (fun _ => "now") 0 "k1"
      (attributesWithAlert (Value.str "extreme")) with
    | ⟨st, h0, h1, _, _, _, _, _⟩ =>
      ⟨st, h0, h1 (Value.str "extreme") rfl (by simp [Value.truthy])⟩,
   match normalize_alertLevel (fun _ => "now") 0 "k1" (attributesWithAlert (Value.num 5)) with
    | ⟨st, h0, h1, _, _, _, h5, _⟩ =>
      have h := h1 (Value.num 5) rfl (by simp [Value.truthy])
      ⟨st, h0, h, h5 (by rw [h]; simp)⟩⟩

end FloodDashboard
